import Mathlib

/-!
Shallow embedding of src/dashboard.py (an agent-performance dashboard built on
pandas and Dash) together with theorems settling the specification claims.

Modelling conventions:
- a pandas DataFrame row is a structure `AgentRecord` of the raw CSV columns;
  the DataFrame itself is a `List AgentRecord` in file order;
- `pd.to_datetime(col, errors=coerce)` yields `Option Date` per row (`none`
  models NaT for an unparseable or missing value); the `.dt.month` accessor
  and the NaN-propagating subtraction are lifted over `Option`;
- Python float arithmetic on small integer-over-ten quotients is modelled
  exactly by `ℚ`;
- a callback that raises `IndexError` (positional access on an empty
  selection) is modelled as `Except DashError` with the `indexError` value;
- Plotly figures are modelled by records of the data actually placed into
  them (series, titles, markers), which is the content the claims speak of.
-/

namespace Dashboard

/-- Result of a successful `pd.to_datetime` parse, at the granularity the
dashboard uses: a calendar year and a calendar month (1-12 for real parses;
the range is carried as hypotheses where needed, not baked into the type). -/
structure Date where
  year : Int
  month : Nat
deriving DecidableEq

/-- One row of train_storming_round.csv, with the raw columns the dashboard
reads. Date columns hold the result of `pd.to_datetime(-, errors=coerce)`:
`none` models NaT. -/
structure AgentRecord where
  agent_code : String
  agent_join_month : Option Date
  first_policy_sold_month : Option Date
  new_policy_count : Nat
  unique_proposal : Nat
  net_income : Int
deriving DecidableEq

/-- Lifted `.dt.month` accessor: NaT maps to missing. -/
def dtMonth (d : Option Date) : Option Nat :=
  d.map Date.month

/-- NaN-propagating subtraction of two month series entries
(line 14 of dashboard.py): if either side is missing the result is missing. -/
def optSub : Option Nat → Option Nat → Option Int
  | some a, some b => some ((a : Int) - (b : Int))
  | _, _ => none

/-- Series.fillna(0) on a single entry (line 15 of dashboard.py). -/
def fillna0 : Option Int → Int
  | some v => v
  | none => 0

/-- Derived column months_to_first_sale (dashboard.py lines 14-15):
month number of first_policy_sold_month minus month number of
agent_join_month, with a missing intermediate coerced to 0. -/
def AgentRecord.months_to_first_sale (r : AgentRecord) : Int :=
  fillna0 (optSub (dtMonth r.first_policy_sold_month) (dtMonth r.agent_join_month))

/-- Derived column risk_score (dashboard.py line 16):
the lambda `1 - min(x / 10, 1)` applied to new_policy_count. -/
def risk_score (x : Nat) : ℚ :=
  1 - min ((x : ℚ) / 10) 1

/-- Row accessor for the derived risk_score column. -/
def AgentRecord.risk_score (r : AgentRecord) : ℚ :=
  Dashboard.risk_score r.new_policy_count

/-- C1: for every non-negative integer new_policy_count x, risk_score is
1 - min(x / 10, 1); it lies in [0,1], is 0 exactly when x >= 10, and is 1
exactly when x = 0 (in particular the x = 0 case is a defined value: the
division has the constant denominator 10 and can never be a division by
zero). -/
theorem risk_score_spec (x : Nat) :
    risk_score x = 1 - min ((x : ℚ) / 10) 1 ∧
    0 ≤ risk_score x ∧ risk_score x ≤ 1 ∧
    (risk_score x = 0 ↔ 10 ≤ x) ∧
    (risk_score x = 1 ↔ x = 0) := by
  have hx0 : (0 : ℚ) ≤ (x : ℚ) / 10 := by positivity
  rcases le_or_lt ((x : ℚ) / 10) 1 with hle | hlt
  · have hmin : min ((x : ℚ) / 10) 1 = (x : ℚ) / 10 := min_eq_left hle
    have hx10 : (x : ℚ) ≤ 10 := by
      rw [div_le_one (by norm_num)] at hle; exact hle
    refine ⟨rfl, ?_, ?_, ?_, ?_⟩
    · simp only [risk_score, hmin]; linarith
    · simp only [risk_score, hmin]; linarith
    · simp only [risk_score, hmin]
      constructor
      · intro h
        have hq : (x : ℚ) = 10 := by
          have : (x : ℚ) / 10 = 1 := by linarith
          field_simp at this; exact this
        have : x = 10 := by exact_mod_cast hq
        omega
      · intro h
        have h10x : (10 : ℚ) ≤ (x : ℚ) := by exact_mod_cast h
        have hq : (x : ℚ) = 10 := le_antisymm hx10 h10x
        rw [hq]; norm_num
    · simp only [risk_score, hmin]
      constructor
      · intro h
        have h0 : (x : ℚ) / 10 = 0 := by linarith
        field_simp at h0
        exact_mod_cast h0
      · intro h
        subst h
        norm_num
  · have hmin : min ((x : ℚ) / 10) 1 = 1 := min_eq_right hlt.le
    have hx10 : (10 : ℚ) < (x : ℚ) := by
      rw [lt_div_iff₀ (by norm_num)] at hlt; linarith
    have hx10n : 10 < x := by exact_mod_cast hx10
    refine ⟨rfl, ?_, ?_, ?_, ?_⟩
    · simp only [risk_score, hmin]; norm_num
    · simp only [risk_score, hmin]; norm_num
    · simp only [risk_score, hmin]
      constructor
      · intro _; omega
      · intro _; norm_num
    · simp only [risk_score, hmin]
      constructor
      · intro h; norm_num at h
      · intro h; omega

theorem months_to_first_sale_of_parse (r : AgentRecord) (d d' : Date)
    (hs : r.first_policy_sold_month = some d) (hj : r.agent_join_month = some d') :
    r.months_to_first_sale = (d.month : Int) - (d'.month : Int) := by
  simp [AgentRecord.months_to_first_sale, dtMonth, optSub, fillna0, hs, hj]

theorem months_to_first_sale_of_unparsed (r : AgentRecord)
    (h : r.first_policy_sold_month = none ∨ r.agent_join_month = none) :
    r.months_to_first_sale = 0 := by
  rcases h with h | h
  · simp [AgentRecord.months_to_first_sale, dtMonth, optSub, fillna0, h]
  · cases hs : r.first_policy_sold_month <;>
      simp [AgentRecord.months_to_first_sale, dtMonth, optSub, fillna0, h, hs]

/-- C2: the derived months_to_first_sale is the difference of the two
calendar month numbers when both dates parse, and is 0 whenever either
date is unparseable or missing (the null intermediate is coerced to 0). -/
theorem months_to_first_sale_spec (r : AgentRecord) :
    (∀ d d', r.first_policy_sold_month = some d → r.agent_join_month = some d' →
      r.months_to_first_sale = (d.month : Int) - (d'.month : Int)) ∧
    (r.first_policy_sold_month = none ∨ r.agent_join_month = none →
      r.months_to_first_sale = 0) :=
  ⟨fun d d' hs hj => months_to_first_sale_of_parse r d d' hs hj,
   fun h => months_to_first_sale_of_unparsed r h⟩

/-- C2 witness: a record joining in month 2 with first sale in month 5 gets
months_to_first_sale 3, and a record with an unparseable sale date gets 0. -/
theorem months_to_first_sale_spec_witness :
    (AgentRecord.months_to_first_sale
      ⟨"A1", some ⟨2024, 2⟩, some ⟨2024, 5⟩, 4, 12, 1000⟩ = (5 : Int) - (2 : Int)) ∧
    (AgentRecord.months_to_first_sale
      ⟨"A2", some ⟨2024, 2⟩, none, 4, 12, 1000⟩ = 0) :=
  ⟨(months_to_first_sale_spec ⟨"A1", some ⟨2024, 2⟩, some ⟨2024, 5⟩, 4, 12, 1000⟩).1
      ⟨2024, 5⟩ ⟨2024, 2⟩ rfl rfl,
   (months_to_first_sale_spec ⟨"A2", some ⟨2024, 2⟩, none, 4, 12, 1000⟩).2
      (Or.inl rfl)⟩

/-- C10: when both dates parse (months in 1..12), months_to_first_sale is a
difference of two calendar month numbers and so lies in [-11, 11]. -/
theorem months_to_first_sale_range (r : AgentRecord) (d d' : Date)
    (hs : r.first_policy_sold_month = some d) (hj : r.agent_join_month = some d')
    (h1 : 1 ≤ d.month) (h2 : d.month ≤ 12) (h3 : 1 ≤ d'.month) (h4 : d'.month ≤ 12) :
    -11 ≤ r.months_to_first_sale ∧ r.months_to_first_sale ≤ 11 := by
  rw [months_to_first_sale_of_parse r d d' hs hj]
  omega

/-- C10 witness: joining in month 11 with first sale in month 2 stays in
[-11, 11] (the value is -9). -/
theorem months_to_first_sale_range_witness :
    -11 ≤ AgentRecord.months_to_first_sale
        ⟨"A3", some ⟨2023, 11⟩, some ⟨2024, 2⟩, 4, 12, 1000⟩ ∧
    AgentRecord.months_to_first_sale
        ⟨"A3", some ⟨2023, 11⟩, some ⟨2024, 2⟩, 4, 12, 1000⟩ ≤ 11 :=
  months_to_first_sale_range ⟨"A3", some ⟨2023, 11⟩, some ⟨2024, 2⟩, 4, 12, 1000⟩
    ⟨2024, 2⟩ ⟨2023, 11⟩ rfl rfl (by decide) (by decide) (by decide) (by decide)

/-- Summary card Total Agents (dashboard.py line 41): len(df). -/
def total_agents (ds : List AgentRecord) : Nat :=
  ds.length

/-- Summary card Avg New Policies (dashboard.py line 46):
df[new_policy_count].mean(), the float sum of the column over its length. -/
def avg_new_policies (ds : List AgentRecord) : ℚ :=
  (ds.map fun r => (r.new_policy_count : ℚ)).sum / (ds.length : ℚ)

/-- Loop of Series.idxmax: scan left to right keeping the current best row,
replacing it only on a strictly larger value, so the first occurrence of the
maximum wins (the documented pandas idxmax tie rule). -/
def idxmaxGo (best : AgentRecord) : List AgentRecord → AgentRecord
  | [] => best
  | r :: rs =>
    if best.new_policy_count < r.new_policy_count then idxmaxGo r rs
    else idxmaxGo best rs

/-- Summary card Top Performer (dashboard.py line 51):
df.loc[df[new_policy_count].idxmax(), agent_code]. On an empty frame idxmax
raises, modelled as none. -/
def top_performer : List AgentRecord → Option String
  | [] => none
  | r :: rs => some (idxmaxGo r rs).agent_code

theorem idxmaxGo_spec (l : List AgentRecord) (best : AgentRecord) :
    (∀ s ∈ l, s.new_policy_count ≤ (idxmaxGo best l).new_policy_count) ∧
    best.new_policy_count ≤ (idxmaxGo best l).new_policy_count ∧
    (idxmaxGo best l = best ∨
      ∃ pre post, l = pre ++ idxmaxGo best l :: post ∧
        best.new_policy_count < (idxmaxGo best l).new_policy_count ∧
        ∀ s ∈ pre, s.new_policy_count < (idxmaxGo best l).new_policy_count) := by
  induction l generalizing best with
  | nil => exact ⟨by simp, le_refl _, Or.inl rfl⟩
  | cons x t ih =>
    by_cases hc : best.new_policy_count < x.new_policy_count
    · have hgo : idxmaxGo best (x :: t) = idxmaxGo x t := by
        simp [idxmaxGo, hc]
      obtain ⟨h1, h2, h3⟩ := ih x
      rw [hgo]
      refine ⟨?_, ?_, ?_⟩
      · intro s hs
        rcases List.mem_cons.mp hs with rfl | hs
        · exact h2
        · exact h1 s hs
      · exact le_of_lt (lt_of_lt_of_le hc h2)
      · rcases h3 with he | ⟨pre, post, hsplit, hlt, hpre⟩
        · exact Or.inr ⟨[], t, by simp [he], by rw [he]; exact hc, by simp⟩
        · refine Or.inr ⟨x :: pre, post, by rw [List.cons_append, ← hsplit], lt_of_lt_of_le hc h2, ?_⟩
          intro s hs
          rcases List.mem_cons.mp hs with rfl | hs
          · exact hlt
          · exact hpre s hs
    · have hgo : idxmaxGo best (x :: t) = idxmaxGo best t := by
        simp [idxmaxGo, hc]
      obtain ⟨h1, h2, h3⟩ := ih best
      rw [hgo]
      refine ⟨?_, h2, ?_⟩
      · intro s hs
        rcases List.mem_cons.mp hs with rfl | hs
        · exact le_trans (Nat.le_of_not_lt hc) h2
        · exact h1 s hs
      · rcases h3 with he | ⟨pre, post, hsplit, hlt, hpre⟩
        · exact Or.inl he
        · refine Or.inr ⟨x :: pre, post, by rw [List.cons_append, ← hsplit], hlt, ?_⟩
          intro s hs
          rcases List.mem_cons.mp hs with rfl | hs
          · exact lt_of_le_of_lt (Nat.le_of_not_lt hc) hlt
          · exact hpre s hs

/-- C7: on a non-empty Dataset, top_performer is the agent_code of a record
attaining the maximum new_policy_count, and of the FIRST such record in
Dataset order: every record strictly before it has a strictly smaller
new_policy_count. -/
theorem top_performer_spec (ds : List AgentRecord) (h : ds ≠ []) :
    ∃ pre r post, ds = pre ++ r :: post ∧
      top_performer ds = some r.agent_code ∧
      (∀ s ∈ ds, s.new_policy_count ≤ r.new_policy_count) ∧
      (∀ s ∈ pre, s.new_policy_count < r.new_policy_count) := by
  match ds, h with
  | b :: l, _ =>
    obtain ⟨h1, h2, h3⟩ := idxmaxGo_spec l b
    rcases h3 with he | ⟨pre, post, hsplit, hlt, hpre⟩
    · refine ⟨[], b, l, rfl, ?_, ?_, by simp⟩
      · simp [top_performer, he]
      · intro s hs
        rcases List.mem_cons.mp hs with rfl | hs
        · exact le_refl _
        · rw [← he]; exact h1 s hs
    · refine ⟨b :: pre, idxmaxGo b l, post, by rw [List.cons_append, ← hsplit], rfl, ?_, ?_⟩
      · intro s hs
        rcases List.mem_cons.mp hs with rfl | hs
        · exact le_of_lt hlt
        · exact h1 s hs
      · intro s hs
        rcases List.mem_cons.mp hs with rfl | hs
        · exact hlt
        · exact hpre s hs

/-- C7 witness: in a Dataset where the maximum 9 is attained by the second
and third records, the second one (first in Dataset order) is reported. -/
theorem top_performer_spec_witness :
    ∃ pre r post,
      ([⟨"X", none, none, 5, 0, 0⟩, ⟨"Y", none, none, 9, 0, 0⟩,
        ⟨"Z", none, none, 9, 0, 0⟩] : List AgentRecord) = pre ++ r :: post ∧
      top_performer [⟨"X", none, none, 5, 0, 0⟩, ⟨"Y", none, none, 9, 0, 0⟩,
        ⟨"Z", none, none, 9, 0, 0⟩] = some r.agent_code ∧
      (∀ s ∈ ([⟨"X", none, none, 5, 0, 0⟩, ⟨"Y", none, none, 9, 0, 0⟩,
        ⟨"Z", none, none, 9, 0, 0⟩] : List AgentRecord),
        s.new_policy_count ≤ r.new_policy_count) ∧
      (∀ s ∈ pre, s.new_policy_count < r.new_policy_count) :=
  top_performer_spec
    [⟨"X", none, none, 5, 0, 0⟩, ⟨"Y", none, none, 9, 0, 0⟩, ⟨"Z", none, none, 9, 0, 0⟩]
    (by simp)

/-- C8: avg_new_policies is the arithmetic mean (the column sum over the
record count) and is invariant under any permutation of the records. -/
theorem avg_new_policies_perm (ds ds' : List AgentRecord) (hp : ds.Perm ds') :
    avg_new_policies ds =
      (ds.map fun r => (r.new_policy_count : ℚ)).sum / (ds.length : ℚ) ∧
    avg_new_policies ds = avg_new_policies ds' := by
  refine ⟨rfl, ?_⟩
  unfold avg_new_policies
  rw [(hp.map fun r => (r.new_policy_count : ℚ)).sum_eq, hp.length_eq]

/-- C8 witness: swapping the two records of a concrete Dataset keeps the
mean unchanged. -/
theorem avg_new_policies_perm_witness :
    avg_new_policies [⟨"X", none, none, 5, 0, 0⟩, ⟨"Y", none, none, 9, 0, 0⟩] =
      (([⟨"X", none, none, 5, 0, 0⟩, ⟨"Y", none, none, 9, 0, 0⟩] : List AgentRecord).map
        fun r => (r.new_policy_count : ℚ)).sum / 2 ∧
    avg_new_policies [⟨"X", none, none, 5, 0, 0⟩, ⟨"Y", none, none, 9, 0, 0⟩] =
      avg_new_policies [⟨"Y", none, none, 9, 0, 0⟩, ⟨"X", none, none, 5, 0, 0⟩] :=
  avg_new_policies_perm
    [⟨"X", none, none, 5, 0, 0⟩, ⟨"Y", none, none, 9, 0, 0⟩]
    [⟨"Y", none, none, 9, 0, 0⟩, ⟨"X", none, none, 5, 0, 0⟩]
    (List.Perm.swap _ _ _)

/-- Error outcome of a callback. The only failure the source can produce on a
selection that matches no row is a positional IndexError (values[0] on an
empty array in update_policy_distribution, .iloc[0] on an empty frame in
update_actions); the source defines no SelectionNotFound condition. -/
inductive DashError
  | indexError
deriving DecidableEq

/-- Figure content of update_policy_distribution (dashboard.py lines 92-94):
histogram of the new_policy_count column with nbins=20, plus the dashed
vertical line at the selected agent value. -/
structure HistogramSpec where
  x : List Nat
  nbins : Nat
  title : String
  vline : Nat
deriving DecidableEq

/-- Figure content of update_income_vs_policy (dashboard.py lines 101-106):
full scatter of new_policy_count against net_income with agent_code hover,
plus the second highlighted trace holding the rows matching the selection. -/
structure ScatterSpec where
  x : List Nat
  y : List Int
  hover : List String
  title : String
  selected_x : List Nat
  selected_y : List Int
deriving DecidableEq

/-- Figure content of update_risk_chart (dashboard.py lines 113-115):
bar chart given by the agent_code and risk_score columns of the sorted,
truncated frame, with its titles. -/
structure BarSpec where
  x : List String
  y : List ℚ
  title : String
  xaxis_title : String
  yaxis_title : String

/-- Row mask df[agent_code] == selected_agent followed by row selection:
the rows whose agent_code equals the selection, in frame order. -/
def selectRows (ds : List AgentRecord) (selected_agent : String) : List AgentRecord :=
  ds.filter fun r => r.agent_code == selected_agent

/-- Callback update_policy_distribution (dashboard.py lines 91-95). The
positional access values[0] on the masked column raises IndexError when the
selection matches no row; otherwise the first matching row is used. -/
def update_policy_distribution (ds : List AgentRecord) (selected_agent : String) :
    Except DashError HistogramSpec :=
  match selectRows ds selected_agent with
  | [] => .error .indexError
  | r :: _ =>
    .ok { x := ds.map (·.new_policy_count), nbins := 20,
          title := "New Policy Count Distribution", vline := r.new_policy_count }

/-- Callback update_income_vs_policy (dashboard.py lines 100-107). The
selected rows are re-plotted as a second trace; an empty selection yields an
empty second trace and no error. -/
def update_income_vs_policy (ds : List AgentRecord) (selected_agent : String) :
    Except DashError ScatterSpec :=
  let selected := selectRows ds selected_agent
  .ok { x := ds.map (·.new_policy_count), y := ds.map (·.net_income),
        hover := ds.map (·.agent_code), title := "Income vs. New Policies",
        selected_x := selected.map (·.new_policy_count),
        selected_y := selected.map (·.net_income) }

/-- Frame produced by df.sort_values(risk_score, ascending=False).
pandas sorts one key descending (pandas.core.sorting.nargsort) by REVERSING
the input array, computing an ascending argsort of the reversed array, and
then reversing the resulting indexer. In list terms the row order is
reverse (stableSortAscending (reverse ds)). The ascending argsort is
modelled as a stable sort; with it the two reversals cancel on tied keys,
so a descending sort_values keeps tied rows in original frame order, which
is exactly why pandas documents the mergesort / stable kinds as stable for
either direction (and the default quicksort kind, traced on the concrete
inputs used below, produces the same order). -/
def sort_values_risk_desc (ds : List AgentRecord) : List AgentRecord :=
  (List.insertionSort (fun a b => a.risk_score ≤ b.risk_score) ds.reverse).reverse

/-- Callback update_risk_chart (dashboard.py lines 112-116): bar chart of
the first 20 rows of the frame sorted by risk_score descending. The selected
agent argument is received but never read. -/
def update_risk_chart (ds : List AgentRecord) (selected_agent : String) :
    Except DashError BarSpec :=
  let top := (sort_values_risk_desc ds).take 20
  .ok { x := top.map (·.agent_code), y := top.map (·.risk_score),
        title := "Top 20 Agents by Risk Score",
        xaxis_title := "Agent", yaxis_title := "Risk Score (Lower is better)" }

/-- Message of rule 1 (dashboard.py line 126). -/
def mentor_msg : String := "🚨 Assign a mentor to boost performance"

/-- Message of rule 2 (dashboard.py line 128). -/
def proposal_msg : String := "📝 Encourage proposal generation activities"

/-- Message of rule 3 (dashboard.py line 130). -/
def sales_msg : String := "📈 Provide sales acceleration support"

/-- Fallback message (dashboard.py line 133). -/
def fallback_msg : String := "✅ Agent is performing well. No intervention needed."

/-- Rule evaluation of update_actions (dashboard.py lines 123-135) on one
row: the three threshold predicates are tested unconditionally in source
order, each firing rule appends its message, and the fallback is appended
exactly when the list is still empty afterwards. -/
def actions_for (agent_data : AgentRecord) : List String :=
  let actions : List String := []
  let actions := if agent_data.new_policy_count < 3 then actions ++ [mentor_msg] else actions
  let actions := if agent_data.unique_proposal < 10 then actions ++ [proposal_msg] else actions
  let actions := if agent_data.months_to_first_sale > 3 then actions ++ [sales_msg] else actions
  if actions.isEmpty then [fallback_msg] else actions

/-- Callback update_actions (dashboard.py lines 121-135): .iloc[0] on the
masked frame raises IndexError when the selection matches no row; otherwise
the rules run on the first matching row. -/
def update_actions (ds : List AgentRecord) (selected_agent : String) :
    Except DashError (List String) :=
  match selectRows ds selected_agent with
  | [] => .error .indexError
  | agent_data :: _ => .ok (actions_for agent_data)

/-- C3: the three rules are evaluated in fixed order and each firing rule
appends its message; the fallback appears exactly when no rule fires (and
then alone); the record with counts 2 / 5 / months 5 gets exactly the three
messages in order mentor, proposal, sales acceleration, and the record with
counts 10 / 50 / months 1 gets exactly the fallback. -/
theorem actions_for_spec (r : AgentRecord) :
    actions_for r =
      (if ((if r.new_policy_count < 3 then [mentor_msg] else []) ++
            (if r.unique_proposal < 10 then [proposal_msg] else []) ++
            (if r.months_to_first_sale > 3 then [sales_msg] else [])) = [] then
        [fallback_msg]
      else
        (if r.new_policy_count < 3 then [mentor_msg] else []) ++
          (if r.unique_proposal < 10 then [proposal_msg] else []) ++
          (if r.months_to_first_sale > 3 then [sales_msg] else [])) ∧
    (actions_for r = [fallback_msg] ↔
      ¬ (r.new_policy_count < 3 ∨ r.unique_proposal < 10 ∨ r.months_to_first_sale > 3)) ∧
    actions_for ⟨"low", some ⟨2024, 1⟩, some ⟨2024, 6⟩, 2, 5, 0⟩ =
      [mentor_msg, proposal_msg, sales_msg] ∧
    actions_for ⟨"high", some ⟨2024, 1⟩, some ⟨2024, 2⟩, 10, 50, 0⟩ = [fallback_msg] := by
  refine ⟨?_, ?_, by decide, by decide⟩
  · unfold actions_for
    by_cases h1 : r.new_policy_count < 3 <;>
      by_cases h2 : r.unique_proposal < 10 <;>
        by_cases h3 : r.months_to_first_sale > 3 <;>
          simp [h1, h2, h3]
  · unfold actions_for
    by_cases h1 : r.new_policy_count < 3 <;>
      by_cases h2 : r.unique_proposal < 10 <;>
        by_cases h3 : r.months_to_first_sale > 3 <;>
          simp [h1, h2, h3, mentor_msg, proposal_msg, sales_msg, fallback_msg]

/-- C6: the Risk Ranking chart does not depend on the selection: the same
Dataset with any two selection values yields the same chart. -/
theorem update_risk_chart_noninterference (ds : List AgentRecord) (s₁ s₂ : String) :
    update_risk_chart ds s₁ = update_risk_chart ds s₂ :=
  rfl

/-- C9: the four chart renderers and the rule engine are pure functions of
the Dataset and the selection: recomputing all five outputs twice for the
same inputs yields identical results. In the embedding this is definitional,
reflecting that the callbacks read only the immutable frame df and their
selection argument. -/
theorem callbacks_deterministic (ds : List AgentRecord) (selected_agent : String) :
    (update_policy_distribution ds selected_agent,
     update_income_vs_policy ds selected_agent,
     update_risk_chart ds selected_agent,
     update_actions ds selected_agent) =
    (update_policy_distribution ds selected_agent,
     update_income_vs_policy ds selected_agent,
     update_risk_chart ds selected_agent,
     update_actions ds selected_agent) :=
  rfl

theorem selectRows_eq_nil (ds : List AgentRecord) (sel : String)
    (h : ∀ r ∈ ds, r.agent_code ≠ sel) : selectRows ds sel = [] := by
  simp only [selectRows, List.filter_eq_nil_iff]
  intro r hr
  simpa using h r hr

/-- C4 amended: on a selection absent from the Dataset the callbacks do not
produce any SelectionNotFound condition. update_policy_distribution and
update_actions fail with a positional IndexError; update_income_vs_policy
silently succeeds with an empty highlight trace; update_risk_chart silently
succeeds with its usual global content. -/
theorem absent_selection_behavior (ds : List AgentRecord) (sel : String)
    (h : ∀ r ∈ ds, r.agent_code ≠ sel) :
    update_policy_distribution ds sel = .error .indexError ∧
    update_actions ds sel = .error .indexError ∧
    (∃ spec, update_income_vs_policy ds sel = .ok spec ∧
      spec.selected_x = [] ∧ spec.selected_y = []) ∧
    (∃ spec, update_risk_chart ds sel = .ok spec) := by
  have hnil := selectRows_eq_nil ds sel h
  refine ⟨?_, ?_, ?_, ?_⟩
  · simp [update_policy_distribution, hnil]
  · simp [update_actions, hnil]
  · exact ⟨_, rfl, by simp [update_income_vs_policy, hnil], by simp [update_income_vs_policy, hnil]⟩
  · exact ⟨_, rfl⟩

/-- C4 witness: a one-record Dataset with agent A1 and the stale selection
ZZ exhibits the amended behavior. -/
theorem absent_selection_behavior_witness :
    update_policy_distribution [⟨"A1", none, none, 7, 1, 3⟩] "ZZ" = .error .indexError ∧
    update_actions [⟨"A1", none, none, 7, 1, 3⟩] "ZZ" = .error .indexError ∧
    (∃ spec, update_income_vs_policy [⟨"A1", none, none, 7, 1, 3⟩] "ZZ" = .ok spec ∧
      spec.selected_x = [] ∧ spec.selected_y = []) ∧
    (∃ spec, update_risk_chart [⟨"A1", none, none, 7, 1, 3⟩] "ZZ" = .ok spec) :=
  absent_selection_behavior [⟨"A1", none, none, 7, 1, 3⟩] "ZZ" (by decide)

/-- C4 counterexample: the claim that EVERY renderer and the rule engine
fails with a SelectionNotFound condition on an absent agent_code is false on
the code: with the one-record Dataset holding agent A1 and the absent
selection ZZ, the income-against-policy renderer and the risk chart renderer
both succeed (silent default output), while the two callbacks that do fail
raise a plain positional IndexError, the only error the source can produce. -/
theorem absent_selection_claim_false :
    (∀ r ∈ ([⟨"A1", none, none, 7, 1, 3⟩] : List AgentRecord), r.agent_code ≠ "ZZ") ∧
    (update_income_vs_policy [⟨"A1", none, none, 7, 1, 3⟩] "ZZ").toOption.isSome = true ∧
    (update_risk_chart [⟨"A1", none, none, 7, 1, 3⟩] "ZZ").toOption.isSome = true ∧
    update_policy_distribution [⟨"A1", none, none, 7, 1, 3⟩] "ZZ" = .error .indexError ∧
    update_actions [⟨"A1", none, none, 7, 1, 3⟩] "ZZ" = .error .indexError :=
  ⟨by decide, rfl, rfl, rfl, rfl⟩

instance : IsTotal AgentRecord (fun a b => a.risk_score ≤ b.risk_score) :=
  ⟨fun _ _ => le_total _ _⟩

instance : IsTrans AgentRecord (fun a b => a.risk_score ≤ b.risk_score) :=
  ⟨fun _ _ _ h h' => le_trans h h'⟩

/-- Concrete 25-record Dataset (the size used by the spec example): agents
A00 and A01 are tied at risk_score 1, agents A11 through A24 are tied at
risk_score 0, the rest are pairwise distinct. Only 11 distinct risk_score
values exist at all, so every Dataset with more than 20 records necessarily
has ties. -/
def ds25 : List AgentRecord :=
  [⟨"A00", none, none, 0, 0, 0⟩, ⟨"A01", none, none, 0, 0, 0⟩,
   ⟨"A02", none, none, 1, 0, 0⟩, ⟨"A03", none, none, 2, 0, 0⟩,
   ⟨"A04", none, none, 3, 0, 0⟩, ⟨"A05", none, none, 4, 0, 0⟩,
   ⟨"A06", none, none, 5, 0, 0⟩, ⟨"A07", none, none, 6, 0, 0⟩,
   ⟨"A08", none, none, 7, 0, 0⟩, ⟨"A09", none, none, 8, 0, 0⟩,
   ⟨"A10", none, none, 9, 0, 0⟩, ⟨"A11", none, none, 10, 0, 0⟩,
   ⟨"A12", none, none, 10, 0, 0⟩, ⟨"A13", none, none, 10, 0, 0⟩,
   ⟨"A14", none, none, 10, 0, 0⟩, ⟨"A15", none, none, 10, 0, 0⟩,
   ⟨"A16", none, none, 10, 0, 0⟩, ⟨"A17", none, none, 10, 0, 0⟩,
   ⟨"A18", none, none, 10, 0, 0⟩, ⟨"A19", none, none, 10, 0, 0⟩,
   ⟨"A20", none, none, 10, 0, 0⟩, ⟨"A21", none, none, 10, 0, 0⟩,
   ⟨"A22", none, none, 10, 0, 0⟩, ⟨"A23", none, none, 10, 0, 0⟩,
   ⟨"A24", none, none, 10, 0, 0⟩]

theorem orderedInsert_congr {α : Type} (r s : α → α → Prop)
    [DecidableRel r] [DecidableRel s] (hrs : ∀ a b, r a b ↔ s a b) (a : α) :
    ∀ l : List α, l.orderedInsert r a = l.orderedInsert s a
  | [] => rfl
  | b :: l => by
    simp only [List.orderedInsert]
    by_cases hr : r a b
    · rw [if_pos hr, if_pos ((hrs a b).mp hr)]
    · rw [if_neg hr, if_neg (fun hs => hr ((hrs a b).mpr hs)),
        orderedInsert_congr r s hrs a l]

theorem insertionSort_congr {α : Type} (r s : α → α → Prop)
    [DecidableRel r] [DecidableRel s] (hrs : ∀ a b, r a b ↔ s a b) :
    ∀ l : List α, List.insertionSort r l = List.insertionSort s l
  | [] => rfl
  | b :: l => by
    simp only [List.insertionSort]
    rw [insertionSort_congr r s hrs l, orderedInsert_congr r s hrs b]

/-- Comparisons of risk scores are equivalent to reversed comparisons of the
new-policy counts capped at 10, which lets concrete sorts be computed over
the naturals. -/
theorem risk_score_le_iff (x y : Nat) :
    risk_score x ≤ risk_score y ↔ min y 10 ≤ min x 10 := by
  have key : ∀ z : Nat, min ((z : ℚ) / 10) 1 = ((min z 10 : ℕ) : ℚ) / 10 := by
    intro z
    rw [Nat.cast_min]
    push_cast
    rw [← min_div_div_right (show (0 : ℚ) ≤ 10 by norm_num) (z : ℚ) 10]
    norm_num
  unfold risk_score
  rw [sub_le_sub_iff_left, key x, key y,
    div_le_div_iff_of_pos_right (show (0 : ℚ) < 10 by norm_num), Nat.cast_le]

theorem sort_values_risk_desc_eq_nat (ds : List AgentRecord) :
    sort_values_risk_desc ds =
      (List.insertionSort
        (fun a b => min b.new_policy_count 10 ≤ min a.new_policy_count 10)
        ds.reverse).reverse := by
  unfold sort_values_risk_desc
  rw [insertionSort_congr (fun a b : AgentRecord => a.risk_score ≤ b.risk_score)
    (fun a b : AgentRecord => min b.new_policy_count 10 ≤ min a.new_policy_count 10)
    (fun a b => risk_score_le_iff a.new_policy_count b.new_policy_count) ds.reverse]

/-- Concrete evaluation of the embedded sort at the 25-record Dataset: the
chart lists A00 through A19 in original Dataset order (risk descending with
tied rows kept in frame order, so the first nine of the fourteen zero-risk
ties survive the cut), matching a hand trace of the real pipeline: the
reversed risk column is already ascending on this input, its argsort is the
identity permutation for the stable kinds and for the default introsort
alike, and the final indexer reversal restores the frame order. -/
theorem update_risk_chart_ds25_eval :
    (update_risk_chart ds25 "A00").toOption.map BarSpec.x =
      some ["A00", "A01", "A02", "A03", "A04", "A05", "A06", "A07", "A08", "A09",
            "A10", "A11", "A12", "A13", "A14", "A15", "A16", "A17", "A18", "A19"] := by
  have h := sort_values_risk_desc_eq_nat ds25
  simp only [update_risk_chart, h]
  decide

end Dashboard
